import Mathlib

set_option autoImplicit false

/-!
Shallow embedding of the Alephium helper client
(`pkg/dia/helpers/alephium-helper/client.go`) of the diadata repository.

The HTTP transport is modelled by an explicit `TransportWorld` value describing
what the network returns for one request; JSON unmarshalling into a caller
chosen result shape is modelled by a `decode : String → Option α` parameter.
Side effects that the specification talks about are reified in the return
values: the rate-limit sleep of `waiting()` as a Boolean `slept` flag, and the
set of HTTP requests handed to `callAPI` as a list of URL strings.
Go run-time panics (out-of-range slice indexing) are a distinct outcome
`PanicOr.panic`, separate from returned `error` values.
-/

namespace Alephium

/-- URL of the indexer/backend REST API (constant `BackendURL`). -/
def BackendURL : String := "https://backend.mainnet.alephium.org"

/-- URL of the node REST API (constant `NodeURL`). -/
def NodeURL : String := "https://node.mainnet.alephium.org"

/-- Root pool-registry contract address (constant `AYINPairContractAddress`). -/
def AYINPairContractAddress : String := "vyrkJHG49TXss6pGAz2dVxq5o7mBXNNXAV18nAeqVT1R"

/-- Method index of the symbol call (iota constant `SymbolMethod = 0`). -/
def SymbolMethod : Nat := 0

/-- Method index of the name call (iota constant `NameMethod = 1`). -/
def NameMethod : Nat := 1

/-- Method index of the decimals call (iota constant `DecimalsMethod = 2`). -/
def DecimalsMethod : Nat := 2

/-- Method index of the token-pair call (constant `TokenPairMethod = 7`). -/
def TokenPairMethod : Nat := 7

/-- Event index tagging swap events (constant `SwapEventIndex = 2`). -/
def SwapEventIndex : Int := 2

/-- Errors the client can return, following the taxonomy of the specification.
`apiError` records the HTTP status code and the body that `callAPI` reads and
logs together with its "not 200 http response code from api" error;
`dumpError` is a failure of the debug-mode request/response dump. -/
inductive GoError where
  | transportError
  | apiError (statusCode : Nat) (body : String)
  | decodeError (msg : String)
  | contractCallError (msg : String)
  | addressFormatError
  | dumpError (msg : String)
  deriving DecidableEq

/-- Outcome of Go code that may panic (out-of-range indexing) instead of
returning: `ret v` is a normal return, `panic msg` a run-time panic. -/
inductive PanicOr (α : Type) where
  | panic (msg : String)
  | ret (v : α)
  deriving DecidableEq

/-- An HTTP response as seen by `callAPI`: status code and body bytes. -/
structure HttpResponse where
  statusCode : Nat
  body : String
  deriving DecidableEq

/-- What the outside world does for one HTTP request: whether the debug dump
of the request fails, whether the transport delivers a response
(`none` models a transport error from `HTTPClient.Do`), and whether the debug
dump of the response fails. -/
structure TransportWorld where
  dumpRequestErr : Option String := none
  transport : Option HttpResponse := none
  dumpResponseErr : Option String := none
  deriving DecidableEq

deriving instance DecidableEq for Except

/-- Result of one `callAPI` invocation: the returned error or decoded value,
and whether the rate-limit sleep `c.waiting()` ran before returning. -/
structure CallOutcome (α : Type) where
  result : Except GoError α
  slept : Bool
  deriving DecidableEq

/-- Embedding of `AlephiumClient.callAPI` (client.go lines 84-126): in debug
mode dump the outgoing request (propagating a dump failure), perform the
request, in debug mode dump the response (propagating a dump failure), read
the body, fail with the status code and body when the status is not 200,
otherwise unmarshal the body into the target shape (failing on mismatch),
and only then sleep the configured duration and close the body. -/
def callAPI {α : Type} (debug : Bool) (decode : String → Option α)
    (w : TransportWorld) : CallOutcome α :=
  if debug && w.dumpRequestErr.isSome then
    { result := .error (.dumpError (w.dumpRequestErr.getD "")), slept := false }
  else
    match w.transport with
    | none => { result := .error .transportError, slept := false }
    | some resp =>
      if debug && w.dumpResponseErr.isSome then
        { result := .error (.dumpError (w.dumpResponseErr.getD "")), slept := false }
      else if resp.statusCode ≠ 200 then
        { result := .error (.apiError resp.statusCode resp.body), slept := false }
      else
        match decode resp.body with
        | none => { result := .error (.decodeError "json unmarshal"), slept := false }
        | some v => { result := .ok v, slept := true }

/-- Modelled from the spec: a `ContractEvent` (types.go is not part of src/)
is tagged by an integer event kind `eventIndex` and carries further fields,
modelled as an opaque list of field strings. -/
structure ContractEvent where
  eventIndex : Int
  fields : List String := []
  deriving DecidableEq

/-- Embedding of `AlephiumClient.FilterEvents` (client.go lines 353-361):
start from an empty slice and append, in order, every event whose
`EventIndex` equals the filter. -/
def FilterEvents (allEvents : List ContractEvent) (filter : Int) :
    List ContractEvent :=
  allEvents.foldl
    (fun events event => if event.eventIndex = filter then events ++ [event] else events) []

example :
    FilterEvents [⟨2, ["a"]⟩, ⟨1, ["b"]⟩, ⟨2, ["c"]⟩] 2 = [⟨2, ["a"]⟩, ⟨2, ["c"]⟩] := by
  decide

example :
    (callAPI false (fun _ => some ()) { transport := some ⟨500, "oops"⟩ }).slept = false := by
  decide

/-- Modelled from the spec: `dia.Asset` (the dia package is not part of src/) —
{address, symbol, name, decimals: uint8, blockchain}; `decimals` is a `Nat`
kept below 2^8 by the explicit `% 256` at the Go `uint8` conversion site. -/
structure Asset where
  symbol : String := ""
  name : String := ""
  address : String := ""
  decimals : Nat := 0
  blockchain : String := ""
  deriving DecidableEq

/-- The hard-coded native Alephium asset `ALPHNativeToken`
(client.go lines 46-51); the Go struct literal leaves `Blockchain` at its
zero value, the empty string. -/
def ALPHNativeToken : Asset :=
  { address := "tgx7VNFoP9DJiFMFgXXtafQZkUvyEdDHT9ryamHJYrjq"
    symbol := "ALPH"
    decimals := 18
    name := "Alephium" }

/-- Value of one hexadecimal digit, `none` for a non-hex character. -/
def hexDigitValue (c : Char) : Option Nat :=
  if 48 ≤ c.toNat ∧ c.toNat ≤ 57 then some (c.toNat - 48)
  else if 97 ≤ c.toNat ∧ c.toNat ≤ 102 then some (c.toNat - 87)
  else if 65 ≤ c.toNat ∧ c.toNat ≤ 70 then some (c.toNat - 55)
  else none

/-- Byte values of a hex string taken two digits at a time; `none` on an
odd-length or non-hex input, matching Go's `hex.DecodeString`. -/
def decodeHexBytes : List Char → Option (List Nat)
  | [] => some []
  | [_] => none
  | a :: b :: rest =>
    match hexDigitValue a, hexDigitValue b, decodeHexBytes rest with
    | some ha, some hb, some bytes => some ((16 * ha + hb) :: bytes)
    | _, _, _ => none

/-- Modelled from the spec: `DecodeHex` (utils.go is not part of src/) decodes
a hex-encoded byte string to text and fails with a `DecodeError` on
odd-length or non-hex input; decoded bytes are rendered as the characters
with those code points (exact for the ASCII payloads the chain stores). -/
def DecodeHex (s : String) : Except GoError String :=
  match decodeHexBytes s.data with
  | none => .error (.decodeError "encoding hex invalid input")
  | some bytes => .ok (String.mk (bytes.map Char.ofNat))

example : DecodeHex "4159494e" = .ok "AYIN" := by decide

/-- Numeric value of a string of decimal digits, most significant first. -/
def decDigitsValue (s : String) : Nat :=
  s.data.foldl (fun acc c => acc * 10 + (c.toNat - 48)) 0

/-- Embedding of Go's `strconv.ParseUint(s, 10, bitSize)`: accepts a nonempty
string of decimal digits whose value fits in `bitSize` bits; fails on empty
or non-digit input (ErrSyntax) and on a value of `bitSize` bits or more
(ErrRange). -/
def parseUint10 (s : String) (bitSize : Nat) : Except GoError Nat :=
  if s.data.isEmpty then .error (.decodeError "ParseUint invalid syntax")
  else if ¬ s.data.all Char.isDigit then .error (.decodeError "ParseUint invalid syntax")
  else if decDigitsValue s ≥ 2 ^ bitSize then .error (.decodeError "ParseUint value out of range")
  else .ok (decDigitsValue s)

example : parseUint10 "300" 32 = .ok 300 := by decide
example : parseUint10 "4294967296" 32 = .error (.decodeError "ParseUint value out of range") := by
  decide

/-- Modelled from the spec: `groupOfAddress` (utils.go is not part of src/)
derives the shard/group index (0..N-1) from the address's encoding and fails
with an `AddressFormatError` on malformed input. The concrete derivation is
outside src/; malformed is modelled as the empty address and the index as the
first character's code modulo the chain's four groups. -/
def groupOfAddress (address : String) : Except GoError Nat :=
  if address.isEmpty then .error .addressFormatError
  else .ok ((address.data.headD ' ').toNat % 4)

/-- Modelled from the spec: `AddressFromTokenId` (utils.go is not part of
src/) converts a 32-byte token identifier, returned by contract calls as a
hex string, into its canonical contract address string, failing with a
`DecodeError` on malformed identifiers. Malformed is modelled as not being
64 hex digits; the fixed derivation, outside src/, is modelled as an
injective placeholder tagging the identifier. -/
def AddressFromTokenId (tokenId : String) : Except GoError String :=
  if tokenId.length = 64 ∧ tokenId.data.all (fun c => (hexDigitValue c).isSome) then
    .ok ("address-of-" ++ tokenId)
  else
    .error (.decodeError "invalid token id")

/-- Modelled from the spec: a single contract read request
{group: int, address: string, methodIndex: int} (types.go is not part of
src/). -/
structure CallContractRequest where
  group : Int
  address : String
  methodIndex : Int
  deriving DecidableEq

/-- Modelled from the spec and usage: one typed return value of a contract
call, carrying a value string (types.go is not part of src/). -/
structure ReturnField where
  value : String
  deriving DecidableEq

/-- Modelled from the spec and usage: a contract call result carries either a
success payload (a type tag and an ordered sequence of return values) or an
error string (types.go is not part of src/). -/
structure CallContractResult where
  typeName : String := ""
  returns : List ReturnField := []
  error : Option String := none
  deriving DecidableEq

/-- Modelled from the spec and usage: a multi-call response is a sequence of
per-call results positionally aligned with the request sequence (types.go is
not part of src/). -/
structure MulticallContractResponse where
  results : List CallContractResult
  deriving DecidableEq

/-- Modelled from usage: one decoded output row, keeping the type tag and the
first return value of a successful sub-call (types.go is not part of src/);
`Value` of the embedded field is promoted to the row. -/
structure OutputField where
  responseResult : String
  field : ReturnField
  deriving DecidableEq

/-- The promoted `Value` of the embedded return field. -/
def OutputField.value (f : OutputField) : String := f.field.value

/-- Modelled from usage: the collected output of a metadata multi-call for one
contract address (types.go is not part of src/). -/
structure OutputResult where
  address : String
  results : List OutputField
  deriving DecidableEq

/-- Modelled from the spec: a sub-contract listing response, one address per
discovered pool contract (types.go is not part of src/). -/
structure SubContractResponse where
  subContracts : List String := []
  deriving DecidableEq

/-- Embedding of `decodeMulticallRequestToAssets` (client.go lines 378-414):
decode the symbol (index 0) and name (index 1) rows through `DecodeHex`,
parse the decimals row (index 2) with `strconv.ParseUint(_, 10, 32)` and
store it through the `uint8` conversion, i.e. reduced modulo 2^8; each
failure returns the asset populated so far together with the error, and an
out-of-range row index is a run-time panic. -/
def decodeMulticallRequestToAssets (contractAddress blockchain : String)
    (resp : OutputResult) : PanicOr (Asset × Option GoError) :=
  let asset : Asset := {}
  match resp.results.get? SymbolMethod with
  | none => .panic "index out of range"
  | some row0 =>
    match DecodeHex row0.value with
    | .error e => .ret (asset, some e)
    | .ok symbol =>
      let asset := { asset with symbol := symbol }
      match resp.results.get? NameMethod with
      | none => .panic "index out of range"
      | some row1 =>
        match DecodeHex row1.value with
        | .error e => .ret (asset, some e)
        | .ok name =>
          let asset := { asset with name := name }
          match resp.results.get? DecimalsMethod with
          | none => .panic "index out of range"
          | some row2 =>
            match parseUint10 row2.value 32 with
            | .error e => .ret (asset, some e)
            | .ok decimals =>
              .ret ({ asset with
                        decimals := decimals % 256
                        address := contractAddress
                        blockchain := blockchain }, none)

/-- URL of the multi-call endpoint used by `GetTokenInfoForContractDecoded`. -/
def multicallURL : String := NodeURL ++ "/contracts/multicall-contract"

/-- URL of the single-call endpoint used by `GetTokenPairAddresses`. -/
def callContractURL : String := NodeURL ++ "/contracts/call-contract"

/-- Embedding of the row loop of `GetTokenInfoForContractDecoded`
(client.go lines 260-275): walk the multi-call results in order; the first
row carrying an error string aborts with that string; otherwise the row's
first return value is taken (a run-time panic when a successful row has no
return values) and collected as an `OutputField`. -/
def collectOutputFields :
    List CallContractResult → PanicOr (Except String (List OutputField))
  | [] => .ret (.ok [])
  | row :: rest =>
    match row.error with
    | some msg => .ret (.error msg)
    | none =>
      match row.returns.get? 0 with
      | none => .panic "index out of range"
      | some r0 =>
        match collectOutputFields rest with
        | .panic msg => .panic msg
        | .ret (.error msg) => .ret (.error msg)
        | .ret (.ok fields) => .ret (.ok (⟨row.typeName, r0⟩ :: fields))

/-- Embedding of `GetTokenInfoForContractDecoded` (client.go lines 214-279):
short-circuit to the hard-coded native asset when the address is the native
token's (before any request is built); otherwise derive the group (three
identical derivations, one per method index 0..2, any failure aborting),
post the three-call batch to the multi-call endpoint, walk the rows through
`collectOutputFields` (an error string becomes a `ContractCallError` with a
nil asset), and decode the collected rows; the decoded asset pointer is
returned even when decoding failed. The second component lists the requests
handed to `callAPI`. -/
def GetTokenInfoForContractDecoded (contractAddress blockchain : String)
    (decode : String → Option MulticallContractResponse) (debug : Bool)
    (w : TransportWorld) :
    PanicOr (Option Asset × Option GoError) × List String :=
  if contractAddress = ALPHNativeToken.address then
    (.ret (some ALPHNativeToken, none), [])
  else
    match groupOfAddress contractAddress with
    | .error e => (.ret (none, some e), [])
    | .ok _group =>
      match (callAPI debug decode w).result with
      | .error e => (.ret (none, some e), [multicallURL])
      | .ok response =>
        match collectOutputFields response.results with
        | .panic msg => (.panic msg, [multicallURL])
        | .ret (.error msg) =>
          (.ret (none, some (.contractCallError msg)), [multicallURL])
        | .ret (.ok fields) =>
          match decodeMulticallRequestToAssets contractAddress blockchain
              { address := contractAddress, results := fields } with
          | .panic msg => (.panic msg, [multicallURL])
          | .ret (asset, err) => (.ret (some asset, err), [multicallURL])

/-- Embedding of `GetTokenPairAddresses` (client.go lines 155-211): derive
the contract's group, post a single call at method index 7, turn a response
error string into a returned error, then decode `Returns[0]` and
`Returns[1]` through `AddressFromTokenId` in that order — indexing that is a
run-time panic when the success payload has fewer return values. The second
component lists the requests handed to `callAPI`. -/
def GetTokenPairAddresses (contractAddress : String)
    (decode : String → Option CallContractResult) (debug : Bool)
    (w : TransportWorld) :
    PanicOr (Option (List String) × Option GoError) × List String :=
  match groupOfAddress contractAddress with
  | .error e => (.ret (none, some e), [])
  | .ok _group =>
    match (callAPI debug decode w).result with
    | .error e => (.ret (none, some e), [callContractURL])
    | .ok response =>
      match response.error with
      | some msg => (.ret (none, some (.contractCallError msg)), [callContractURL])
      | none =>
        match response.returns.get? 0 with
        | none => (.panic "index out of range", [callContractURL])
        | some r0 =>
          match AddressFromTokenId r0.value with
          | .error e => (.ret (none, some e), [callContractURL])
          | .ok address1 =>
            match response.returns.get? 1 with
            | none => (.panic "index out of range", [callContractURL])
            | some r1 =>
              match AddressFromTokenId r1.value with
              | .error e => (.ret (none, some e), [callContractURL])
              | .ok address2 =>
                (.ret (some [address1, address2], none), [callContractURL])

/-- The sub-contract listing URL for a given limit and page, as formatted by
`GetSwapPairsContractAddresses`. -/
def subContractsPageURL (swapContractsLimit : Int) (page : Nat) : String :=
  BackendURL ++ "/contracts/" ++ AYINPairContractAddress ++
    "/sub-contracts?limit=" ++ toString swapContractsLimit ++ "&page=" ++ toString page

/-- Embedding of `GetSwapPairsContractAddresses` (client.go lines 129-152):
fetch page 1, then page 2, of the root registry's sub-contracts; on a page
failure return the page-1 response accumulated so far together with the
error (the zero-value response when page 1 itself failed); on success append
page 2's sub-contracts, in order, after page 1's. The second component lists
the requests handed to `callAPI`. -/
def GetSwapPairsContractAddresses (swapContractsLimit : Int)
    (decode : String → Option SubContractResponse) (debug : Bool)
    (w1 w2 : TransportWorld) :
    (SubContractResponse × Option GoError) × List String :=
  let url1 := subContractsPageURL swapContractsLimit 1
  match (callAPI debug decode w1).result with
  | .error e => (({}, some e), [url1])
  | .ok page1 =>
    let url2 := subContractsPageURL swapContractsLimit 2
    match (callAPI debug decode w2).result with
    | .error e => ((page1, some e), [url1, url2])
    | .ok page2 =>
      (({ page1 with subContracts := page1.subContracts ++ page2.subContracts }, none),
        [url1, url2])

/-! ## Helper lemmas -/

theorem filterEvents_foldl (allEvents : List ContractEvent) (filter : Int)
    (acc : List ContractEvent) :
    allEvents.foldl
        (fun events event => if event.eventIndex = filter then events ++ [event] else events)
        acc
      = acc ++ allEvents.filter (fun e => e.eventIndex == filter) := by
  induction allEvents generalizing acc with
  | nil => simp
  | cons e rest ih =>
    simp only [List.foldl, List.filter_cons]
    by_cases h : e.eventIndex = filter
    · simp [h, ih]
    · simp [h, ih]

/-! ## Claim theorems -/

/-- C9: `FilterEvents` is a pure total function: for every event list and
integer filter it returns exactly the subsequence of the input whose
`eventIndex` equals the filter, preserving the original order (it equals the
standard order-preserving list filter and is a sublist of the input), and it
returns the empty list on an empty input. -/
theorem FilterEvents_filters_by_eventIndex (allEvents : List ContractEvent) (filter : Int) :
    FilterEvents allEvents filter = allEvents.filter (fun e => e.eventIndex == filter)
    ∧ List.Sublist (FilterEvents allEvents filter) allEvents
    ∧ FilterEvents [] filter = [] := by
  have h : FilterEvents allEvents filter
      = allEvents.filter (fun e => e.eventIndex == filter) := by
    have := filterEvents_foldl allEvents filter []
    simpa [FilterEvents] using this
  refine ⟨h, ?_, rfl⟩
  rw [h]
  exact List.filter_sublist allEvents

/-- C2 counterexample: a completed gateway call on the API-error path (an
HTTP 500 response whose body was read) returns without sleeping, so the
sleep does not occur on every completed call. -/
theorem callAPI_no_sleep_on_api_error :
    (callAPI false (fun _ => some ()) { transport := some ⟨500, "oops"⟩ }).result
        = .error (.apiError 500 "oops")
    ∧ (callAPI false (fun _ => some ()) { transport := some ⟨500, "oops"⟩ }).slept = false := by
  decide

/-- C2 amended: `callAPI` runs the rate-limit sleep exactly on calls that
complete successfully (a 200 response whose body deserializes); on the
API-error path and every other failure path it returns without sleeping. -/
theorem callAPI_slept_iff_success {α : Type} (debug : Bool)
    (decode : String → Option α) (w : TransportWorld) :
    (callAPI debug decode w).slept = true
      ↔ ∃ v, (callAPI debug decode w).result = Except.ok v := by
  unfold callAPI
  by_cases h1 : debug && w.dumpRequestErr.isSome
  · simp [h1]
  · simp only [h1, Bool.false_eq_true, if_false]
    cases w.transport with
    | none => simp
    | some resp =>
      by_cases h2 : debug && w.dumpResponseErr.isSome
      · simp [h2]
      · by_cases h3 : resp.statusCode ≠ 200
        · simp [h2, h3]
        · cases hd : decode resp.body with
          | none => simp [h2, h3, hd]
          | some v => simp [h2, h3, hd]

/-- C3 counterexample: an HTTP 201 response — a 2xx success status whose body
the caller-specified shape accepts — is rejected by `callAPI` with the
API error carrying the status and body, so the failure condition is
"status different from 200", not "non-2xx". -/
theorem callAPI_rejects_201 :
    (callAPI false (fun _ => some ()) { transport := some ⟨201, "created"⟩ }).result
        = .error (.apiError 201 "created")
    ∧ 200 ≤ 201 ∧ 201 ≤ 299 := by
  decide

/-- C3 amended: for every HTTP response received (debug mode off), `callAPI`
fails with the API error carrying the response's status code and body
exactly when the status is not 200; on a 200 response it deserializes the
body into the caller-specified shape, returning the decoded value when the
shape matches and a decode error when it does not. -/
theorem callAPI_status_spec {α : Type} (decode : String → Option α)
    (w : TransportWorld) (resp : HttpResponse) (hw : w.transport = some resp) :
    ((callAPI false decode w).result = .error (.apiError resp.statusCode resp.body)
        ↔ resp.statusCode ≠ 200)
    ∧ (resp.statusCode = 200 →
        (∀ v, decode resp.body = some v → (callAPI false decode w).result = .ok v)
        ∧ (decode resp.body = none →
            (callAPI false decode w).result = .error (.decodeError "json unmarshal"))) := by
  unfold callAPI
  rw [hw]
  by_cases h3 : resp.statusCode ≠ 200
  · simp [h3]
  · constructor
    · cases hd : decode resp.body with
      | none => simp [h3, hd]
      | some v => simp [h3, hd]
    · intro h200
      constructor
      · intro v hv
        simp [h3, hv]
      · intro hn
        simp [h3, hn]

/-- C3 witness: a concrete 404 response is rejected with the API error
carrying status 404 and its body. -/
theorem callAPI_status_spec_witness :
    (callAPI false (fun _ => some ()) { transport := some ⟨404, "missing"⟩ }).result
      = .error (.apiError 404 "missing") := by
  have h := @callAPI_status_spec Unit (fun _ => some ())
    { transport := some ⟨404, "missing"⟩ } ⟨404, "missing"⟩ rfl
  exact h.1.mpr (by decide)

/-- C8: for the known native-token address,
`GetTokenInfoForContractDecoded` short-circuits for every blockchain-name
argument, transport behavior and debug setting: it returns the hard-coded
native asset with no error and hands no request at all to the gateway. -/
theorem GetTokenInfo_native_short_circuit (blockchain : String)
    (decode : String → Option MulticallContractResponse) (debug : Bool)
    (w : TransportWorld) :
    GetTokenInfoForContractDecoded ALPHNativeToken.address blockchain decode debug w
      = (.ret (some ALPHNativeToken, none), []) := by
  unfold GetTokenInfoForContractDecoded
  simp

/-- C10: the `blockchain` field of a returned asset is populated from the
caller's argument only on the multicall path: the hard-coded native asset
has an empty `blockchain` field, the native short-circuit returns it
unchanged for every blockchain-name argument, and every asset produced by a
successful multicall decode carries the caller's blockchain argument. -/
theorem GetTokenInfo_blockchain_population :
    ALPHNativeToken.blockchain = ""
    ∧ (∀ (blockchain : String) (decode : String → Option MulticallContractResponse)
          (debug : Bool) (w : TransportWorld),
        GetTokenInfoForContractDecoded ALPHNativeToken.address blockchain decode debug w
          = (.ret (some ALPHNativeToken, none), []))
    ∧ (∀ (contractAddress blockchain : String) (resp : OutputResult) (asset : Asset),
        decodeMulticallRequestToAssets contractAddress blockchain resp = .ret (asset, none) →
        asset.blockchain = blockchain) := by
  refine ⟨rfl, ?_, ?_⟩
  · intro blockchain decode debug w
    unfold GetTokenInfoForContractDecoded
    simp
  · intro contractAddress blockchain resp asset h
    unfold decodeMulticallRequestToAssets at h
    repeat' split at h
    all_goals simp_all
    subst h
    rfl

/-- C10 witness: a concrete successful three-row decode stores the caller's
blockchain name in the asset's `blockchain` field. -/
theorem GetTokenInfo_blockchain_population_witness :
    ({ symbol := "AYIN", name := "Ayin Token", address := "tok", decimals := 18,
       blockchain := "alephium" } : Asset).blockchain = "alephium" :=
  GetTokenInfo_blockchain_population.2.2 "tok" "alephium"
    { address := "tok",
      results := [⟨"ByteVec", ⟨"4159494e"⟩⟩, ⟨"ByteVec", ⟨"4179696e20546f6b656e"⟩⟩,
                  ⟨"U256", ⟨"18"⟩⟩] }
    { symbol := "AYIN", name := "Ayin Token", address := "tok", decimals := 18,
      blockchain := "alephium" }
    (by decide)

/-- C1 counterexample: a decimals row holding the decimal digit string "300"
— a value that does not fit in 8 bits — does not fail: an asset is produced
with no error, and its `decimals` holds the truncated value 44 instead of
the parsed value 300. -/
theorem decodeMulticall_decimals_truncates_300 :
    decodeMulticallRequestToAssets "tok" "alephium"
        { address := "tok",
          results := [⟨"ByteVec", ⟨"4159494e"⟩⟩, ⟨"ByteVec", ⟨"4179696e20546f6b656e"⟩⟩,
                      ⟨"U256", ⟨"300"⟩⟩] }
      = .ret ({ symbol := "AYIN", name := "Ayin Token", address := "tok", decimals := 44,
                blockchain := "alephium" }, none)
    ∧ 2 ^ 8 ≤ 300 ∧ (44 : Nat) ≠ 300 := by
  decide

/-- C1 amended: the decimals row is parsed as an unsigned base-10 number
capped to 32 bits and the result is stored through the `uint8` conversion,
i.e. reduced modulo 2^8: when the digit string's value fits 32 bits the
asset is produced with `decimals` equal to that value modulo 2^8 (equal to
the parsed value whenever it fits 8 bits), and only a malformed string or a
value of 32 bits or more fails with a decode error producing no complete
asset. -/
theorem decodeMulticall_decimals_spec (contractAddress blockchain : String)
    (resp : OutputResult) (row0 row1 row2 : OutputField) (symbol name : String)
    (h0 : resp.results.get? SymbolMethod = some row0)
    (hs : DecodeHex row0.value = .ok symbol)
    (h1 : resp.results.get? NameMethod = some row1)
    (hn : DecodeHex row1.value = .ok name)
    (h2 : resp.results.get? DecimalsMethod = some row2)
    (hne : row2.value.data ≠ [])
    (hdig : row2.value.data.all Char.isDigit = true) :
    (decDigitsValue row2.value < 2 ^ 32 →
      decodeMulticallRequestToAssets contractAddress blockchain resp
        = .ret ({ symbol := symbol, name := name, address := contractAddress,
                  decimals := decDigitsValue row2.value % 256,
                  blockchain := blockchain }, none))
    ∧ (2 ^ 32 ≤ decDigitsValue row2.value →
      decodeMulticallRequestToAssets contractAddress blockchain resp
        = .ret ({ symbol := symbol, name := name },
                some (.decodeError "ParseUint value out of range")))
    ∧ (decDigitsValue row2.value < 2 ^ 8 →
      decDigitsValue row2.value % 256 = decDigitsValue row2.value) := by
  have hempty : row2.value.data.isEmpty = false := by
    cases hv : row2.value.data with
    | nil => exact absurd hv hne
    | cons a l => rfl
  simp only [List.get?_eq_getElem?] at h0 h1 h2
  refine ⟨?_, ?_, fun h => Nat.mod_eq_of_lt h⟩
  · intro hlt
    have hp : parseUint10 row2.value 32 = .ok (decDigitsValue row2.value) := by
      unfold parseUint10
      simp [hempty, hdig]
      simpa using hlt
    unfold decodeMulticallRequestToAssets
    simp [h0, hs, h1, hn, h2, hp]
  · intro hge
    have hp : parseUint10 row2.value 32
        = .error (.decodeError "ParseUint value out of range") := by
      unfold parseUint10
      simp [hempty, hdig]
      simpa using hge
    unfold decodeMulticallRequestToAssets
    simp [h0, hs, h1, hn, h2, hp]

/-- C1 witness: the decimals digit string "18" fits 8 bits, so the decoded
asset stores decimals 18 exactly. -/
theorem decodeMulticall_decimals_spec_witness :
    decodeMulticallRequestToAssets "tok" "alephium"
        { address := "tok",
          results := [⟨"ByteVec", ⟨"4159494e"⟩⟩, ⟨"ByteVec", ⟨"4179696e20546f6b656e"⟩⟩,
                      ⟨"U256", ⟨"18"⟩⟩] }
      = .ret ({ symbol := "AYIN", name := "Ayin Token", address := "tok",
                decimals := 18, blockchain := "alephium" }, none) := by
  have h := decodeMulticall_decimals_spec "tok" "alephium"
    { address := "tok",
      results := [⟨"ByteVec", ⟨"4159494e"⟩⟩, ⟨"ByteVec", ⟨"4179696e20546f6b656e"⟩⟩,
                  ⟨"U256", ⟨"18"⟩⟩] }
    ⟨"ByteVec", ⟨"4159494e"⟩⟩ ⟨"ByteVec", ⟨"4179696e20546f6b656e"⟩⟩ ⟨"U256", ⟨"18"⟩⟩
    "AYIN" "Ayin Token" (by decide) (by decide) (by decide) (by decide) (by decide)
    (by decide) (by decide)
  have h18 := h.1 (by decide)
  simpa using h18

theorem collectOutputFields_first_error (pre : List CallContractResult)
    (row : CallContractResult) (rest : List CallContractResult) (msg : String)
    (hpre : ∀ r ∈ pre, r.error = none ∧ r.returns ≠ [])
    (herr : row.error = some msg) :
    collectOutputFields (pre ++ row :: rest) = .ret (.error msg) := by
  induction pre with
  | nil => simp [collectOutputFields, herr]
  | cons p ps ih =>
    obtain ⟨hpn, hpr⟩ := hpre p (by simp)
    cases hr : p.returns with
    | nil => exact absurd hr hpr
    | cons x xs =>
      have ihh := ih (fun r hm => hpre r (by simp [hm]))
      simp [collectOutputFields, hpn, hr, ihh]

/-- C6 counterexample: a multicall metadata response whose sub-result at
index 1 carries an on-chain error string, while the successful sub-result at
index 0 has an empty return sequence, makes
`GetTokenInfoForContractDecoded` panic on an out-of-range index instead of
failing with a `ContractCallError`. -/
theorem GetTokenInfo_error_row_counterexample :
    GetTokenInfoForContractDecoded "token1" "alephium"
        (fun _ => some { results := [ { typeName := "ByteVec" },
                                      { error := some "VM execution error" },
                                      { typeName := "U256", returns := [⟨"3132"⟩] } ] })
        false { transport := some ⟨200, "body"⟩ }
      = (.panic "index out of range", [multicallURL])
    ∧ ({ error := some "VM execution error" } : CallContractResult).error ≠ none
    ∧ (PanicOr.panic "index out of range" : PanicOr (Option Asset × Option GoError))
        ≠ .ret (none, some (.contractCallError "VM execution error")) := by
  decide

/-- C6 amended: for every multicall metadata response with a sub-result
carrying an on-chain error string, provided each successful sub-result
preceding the first error-carrying one has at least one return value,
`GetTokenInfoForContractDecoded` fails with a `ContractCallError` holding
the first error string and returns no asset at all — never a partially
populated one; all sub-results must succeed for an asset to be produced. -/
theorem GetTokenInfo_error_row_spec (contractAddress blockchain : String)
    (decode : String → Option MulticallContractResponse) (debug : Bool)
    (w : TransportWorld) (response : MulticallContractResponse) (g : Nat)
    (pre : List CallContractResult) (row : CallContractResult)
    (rest : List CallContractResult) (msg : String)
    (hna : contractAddress ≠ ALPHNativeToken.address)
    (hg : groupOfAddress contractAddress = .ok g)
    (hc : (callAPI debug decode w).result = .ok response)
    (hsplit : response.results = pre ++ row :: rest)
    (hpre : ∀ r ∈ pre, r.error = none ∧ r.returns ≠ [])
    (herr : row.error = some msg) :
    GetTokenInfoForContractDecoded contractAddress blockchain decode debug w
      = (.ret (none, some (.contractCallError msg)), [multicallURL]) := by
  have hcf := collectOutputFields_first_error pre row rest msg hpre herr
  unfold GetTokenInfoForContractDecoded
  simp [hna, hg, hc, hsplit, hcf]

/-- C6 witness: a concrete response whose second sub-result carries the
error string "boom" yields a `ContractCallError` and no asset. -/
theorem GetTokenInfo_error_row_spec_witness :
    GetTokenInfoForContractDecoded "token1" "alephium"
        (fun _ => some { results := [ { typeName := "ByteVec", returns := [⟨"4159494e"⟩] },
                                      { error := some "boom" } ] })
        false { transport := some ⟨200, "body"⟩ }
      = (.ret (none, some (.contractCallError "boom")), [multicallURL]) :=
  GetTokenInfo_error_row_spec "token1" "alephium"
    (fun _ => some { results := [ { typeName := "ByteVec", returns := [⟨"4159494e"⟩] },
                                  { error := some "boom" } ] })
    false { transport := some ⟨200, "body"⟩ }
    { results := [ { typeName := "ByteVec", returns := [⟨"4159494e"⟩] },
                   { error := some "boom" } ] }
    0 [ { typeName := "ByteVec", returns := [⟨"4159494e"⟩] } ] { error := some "boom" } []
    "boom" (by decide) (by decide) (by decide) (by decide) (by decide) (by decide)

/-- C7: under the precondition that the method-index-7 call succeeds with
exactly two returned token identifiers, `GetTokenPairAddresses` accesses
only in-bounds return values and yields the two addresses obtained by
applying `AddressFromTokenId` to the first and second identifier, in that
order; for a success payload with fewer than two returns (whose present
identifiers decode), the indexing of the return sequence is out of bounds —
a run-time panic — rather than a reported error. -/
theorem GetTokenPair_two_returns_spec (contractAddress : String)
    (decode : String → Option CallContractResult) (debug : Bool)
    (w : TransportWorld) (response : CallContractResult) (g : Nat)
    (hg : groupOfAddress contractAddress = .ok g)
    (hc : (callAPI debug decode w).result = .ok response)
    (hne : response.error = none) :
    (∀ (r0 r1 : ReturnField) (a1 a2 : String), response.returns = [r0, r1] →
        AddressFromTokenId r0.value = .ok a1 → AddressFromTokenId r1.value = .ok a2 →
        GetTokenPairAddresses contractAddress decode debug w
          = (.ret (some [a1, a2], none), [callContractURL]))
    ∧ (response.returns.length < 2 →
        (∀ r ∈ response.returns, ∃ a, AddressFromTokenId r.value = .ok a) →
        (GetTokenPairAddresses contractAddress decode debug w).1
          = .panic "index out of range") := by
  constructor
  · intro r0 r1 a1 a2 hr ha1 ha2
    unfold GetTokenPairAddresses
    simp [hg, hc, hne, hr, ha1, ha2]
  · intro hlen hall
    cases hrt : response.returns with
    | nil =>
      unfold GetTokenPairAddresses
      simp [hg, hc, hne, hrt]
    | cons r rs =>
      cases hrs : rs with
      | nil =>
        obtain ⟨a, ha⟩ := hall r (by simp [hrt])
        unfold GetTokenPairAddresses
        simp [hg, hc, hne, hrt, hrs, ha]
      | cons s t =>
        rw [hrt, hrs] at hlen
        simp at hlen
        omega

/-- C7 witness: a success payload with exactly two well-formed 64-hex-digit
token identifiers yields the two derived addresses in order. -/
theorem GetTokenPair_two_returns_spec_witness :
    GetTokenPairAddresses "pool1"
        (fun _ => some { returns :=
          [⟨"aaaaaaaaaaaaaaaaaaaaaaaaaaaaaaaaaaaaaaaaaaaaaaaaaaaaaaaaaaaaaaaa"⟩,
           ⟨"bbbbbbbbbbbbbbbbbbbbbbbbbbbbbbbbbbbbbbbbbbbbbbbbbbbbbbbbbbbbbbbb"⟩] })
        false { transport := some ⟨200, "body"⟩ }
      = (.ret (some
          ["address-of-aaaaaaaaaaaaaaaaaaaaaaaaaaaaaaaaaaaaaaaaaaaaaaaaaaaaaaaaaaaaaaaa",
           "address-of-bbbbbbbbbbbbbbbbbbbbbbbbbbbbbbbbbbbbbbbbbbbbbbbbbbbbbbbbbbbbbbbb"],
          none), [callContractURL]) :=
  (GetTokenPair_two_returns_spec "pool1"
      (fun _ => some { returns :=
        [⟨"aaaaaaaaaaaaaaaaaaaaaaaaaaaaaaaaaaaaaaaaaaaaaaaaaaaaaaaaaaaaaaaa"⟩,
         ⟨"bbbbbbbbbbbbbbbbbbbbbbbbbbbbbbbbbbbbbbbbbbbbbbbbbbbbbbbbbbbbbbbb"⟩] })
      false { transport := some ⟨200, "body"⟩ }
      { returns :=
        [⟨"aaaaaaaaaaaaaaaaaaaaaaaaaaaaaaaaaaaaaaaaaaaaaaaaaaaaaaaaaaaaaaaa"⟩,
         ⟨"bbbbbbbbbbbbbbbbbbbbbbbbbbbbbbbbbbbbbbbbbbbbbbbbbbbbbbbbbbbbbbbb"⟩] }
      0 (by decide) (by decide) (by decide)).1
    ⟨"aaaaaaaaaaaaaaaaaaaaaaaaaaaaaaaaaaaaaaaaaaaaaaaaaaaaaaaaaaaaaaaa"⟩
    ⟨"bbbbbbbbbbbbbbbbbbbbbbbbbbbbbbbbbbbbbbbbbbbbbbbbbbbbbbbbbbbbbbbb"⟩
    "address-of-aaaaaaaaaaaaaaaaaaaaaaaaaaaaaaaaaaaaaaaaaaaaaaaaaaaaaaaaaaaaaaaa"
    "address-of-bbbbbbbbbbbbbbbbbbbbbbbbbbbbbbbbbbbbbbbbbbbbbbbbbbbbbbbbbbbbbbbb"
    (by decide) (by decide) (by decide)

/-- C4 counterexample: when page 1 succeeds with sub-contract "A" and the
page-2 fetch fails on transport, `GetSwapPairsContractAddresses` returns the
gateway error together with a response that still carries page 1's
sub-contract list — a partial list is delivered to the caller alongside the
error. -/
theorem GetSwapPairs_partial_counterexample :
    GetSwapPairsContractAddresses 100 (fun _ => some { subContracts := ["A"] }) false
        { transport := some ⟨200, "p1"⟩ } { transport := none }
      = (({ subContracts := ["A"] }, some .transportError),
         [subContractsPageURL 100 1, subContractsPageURL 100 2])
    ∧ (["A"] : List String) ≠ [] := by
  decide

/-- C4 amended: if either page fetch fails, pool discovery stops at once and
propagates the gateway's error without fetching further pages; the response
value returned alongside the error is the zero-value response when page 1
fails, but carries page 1's sub-contracts when page 2 fails. -/
theorem GetSwapPairs_error_spec (swapContractsLimit : Int)
    (decode : String → Option SubContractResponse) (debug : Bool)
    (w1 w2 : TransportWorld) :
    (∀ e, (callAPI debug decode w1).result = .error e →
        GetSwapPairsContractAddresses swapContractsLimit decode debug w1 w2
          = (({}, some e), [subContractsPageURL swapContractsLimit 1]))
    ∧ (∀ page1 e, (callAPI debug decode w1).result = .ok page1 →
        (callAPI debug decode w2).result = .error e →
        GetSwapPairsContractAddresses swapContractsLimit decode debug w1 w2
          = ((page1, some e),
             [subContractsPageURL swapContractsLimit 1,
              subContractsPageURL swapContractsLimit 2])) := by
  constructor
  · intro e h1
    unfold GetSwapPairsContractAddresses
    simp [h1]
  · intro page1 e h1 h2
    unfold GetSwapPairsContractAddresses
    simp [h1, h2]

/-- C4 witness: with page 1 delivering "A" and page 2 failing on transport,
the error is propagated and the accompanying response carries "A". -/
theorem GetSwapPairs_error_spec_witness :
    GetSwapPairsContractAddresses 7 (fun _ => some { subContracts := ["A"] }) false
        { transport := some ⟨200, "p1"⟩ } { transport := none }
      = (({ subContracts := ["A"] }, some .transportError),
         [subContractsPageURL 7 1, subContractsPageURL 7 2]) :=
  (GetSwapPairs_error_spec 7 (fun _ => some { subContracts := ["A"] }) false
      { transport := some ⟨200, "p1"⟩ } { transport := none }).2
    { subContracts := ["A"] } .transportError (by decide) (by decide)

/-- C5: for every page-size limit and every pair of successful page
responses, pool discovery hands the gateway exactly the page-1 and page-2
listing requests (each bounded by the limit) and returns page 1's
sub-contracts followed by page 2's sub-contracts in their original order,
with no error. -/
theorem GetSwapPairs_concat_spec (swapContractsLimit : Int)
    (decode : String → Option SubContractResponse) (debug : Bool)
    (w1 w2 : TransportWorld) (page1 page2 : SubContractResponse)
    (h1 : (callAPI debug decode w1).result = .ok page1)
    (h2 : (callAPI debug decode w2).result = .ok page2) :
    GetSwapPairsContractAddresses swapContractsLimit decode debug w1 w2
      = (({ page1 with subContracts := page1.subContracts ++ page2.subContracts }, none),
         [subContractsPageURL swapContractsLimit 1,
          subContractsPageURL swapContractsLimit 2]) := by
  unfold GetSwapPairsContractAddresses
  simp [h1, h2]

/-- C5 witness: page 1 = [A, B] and page 2 = [C] yield [A, B, C] in order. -/
theorem GetSwapPairs_concat_spec_witness :
    GetSwapPairsContractAddresses 100
        (fun body => if body = "p1" then some { subContracts := ["A", "B"] }
                     else some { subContracts := ["C"] })
        false { transport := some ⟨200, "p1"⟩ } { transport := some ⟨200, "p2"⟩ }
      = (({ subContracts := ["A", "B", "C"] }, none),
         [subContractsPageURL 100 1, subContractsPageURL 100 2]) :=
  GetSwapPairs_concat_spec 100
    (fun body => if body = "p1" then some { subContracts := ["A", "B"] }
                 else some { subContracts := ["C"] })
    false { transport := some ⟨200, "p1"⟩ } { transport := some ⟨200, "p2"⟩ }
    { subContracts := ["A", "B"] } { subContracts := ["C"] } (by decide) (by decide)

end Alephium
